import Mathlib

/-!
Verification development for the vcon-fadapter ingestion-and-delivery
pipeline.  The definitions below are a shallow embedding of the Python
sources: `fax_adapter/tracker.py` (StateTracker), `fax_adapter/s3_monitor.py`
(date extraction and date filtering), `fax_adapter/parser.py`
(FilenameParser), `fax_adapter/poster.py` together with `main.py`
(FaxAdapter orchestration).  External collaborators (envelope builder,
HTTP transport, filesystem, clock) are modelled as oracle inputs, exactly
at the interface the orchestrator consumes them.
-/

namespace VconFadapter

/-! ## State tracker data model (`fax_adapter/tracker.py`)

A tracker entry is the JSON object written by `StateTracker.mark_processed`:
`{"vcon_uuid": ..., "timestamp": ..., "status": ...}` plus the optional
`"s3_key"` and `"etag"` fields.  The in-memory store `self.state` is a
string-keyed dictionary, embedded as an association list with first-match
lookup and replace-or-append update (Python dict semantics for the
operations the code performs). -/

structure TrackedEntry where
  vcon_uuid : String
  timestamp : String
  status : String
  s3_key : Option String
  etag : Option String
deriving DecidableEq, Repr

abbrev TrackerState := List (String × TrackedEntry)

def TrackerState.lookup : TrackerState → String → Option TrackedEntry
  | [], _ => none
  | (k0, v0) :: rest, k => if k0 = k then some v0 else TrackerState.lookup rest k

def TrackerState.set : TrackerState → String → TrackedEntry → TrackerState
  | [], k, v => [(k, v)]
  | (k0, v0) :: rest, k, v =>
    if k0 = k then (k0, v) :: rest else (k0, v0) :: TrackerState.set rest k v

/-- Persisted form of the tracker store (the JSON state file): it can be
absent (fresh start), present but unreadable (corrupt JSON), or hold a
valid store. -/
inductive Persisted where
  | absent : Persisted
  | corrupt : Persisted
  | good : TrackerState → Persisted
deriving DecidableEq, Repr

structure Tracker where
  state : TrackerState
  storage : Persisted
deriving DecidableEq, Repr

/-- Python truthiness on an optional string argument: `None` and `""` are
falsy, so both select the fallback branch of `x if x else y`. -/
def pyTruthyOpt : Option String → Option String
  | some s => if s = "" then none else some s
  | none => none

/-- `identifier = s3_key if s3_key else filepath` from `tracker.py`. -/
def pyIdent (filepath : String) (s3_key : Option String) : String :=
  match pyTruthyOpt s3_key with
  | some k => k
  | none => filepath

/-- `StateTracker._load`: a readable file yields its store; a corrupt file
is caught (`except Exception`) and falls back to the empty store; an absent
file yields the empty store.  Totality of this function models that load
never raises. -/
def StateTracker.load : Persisted → TrackerState
  | Persisted.good st => st
  | Persisted.corrupt => []
  | Persisted.absent => []

/-- `StateTracker.__init__`: construct a tracker against a persisted
location by loading it. -/
def StateTracker.ofStorage (p : Persisted) : Tracker :=
  { state := StateTracker.load p, storage := p }

/-- `StateTracker._save`: on success the file now holds the current store;
on an I/O failure the exception is caught (`except Exception`) and the file
keeps its previous content.  Totality models that save never raises. -/
def StateTracker.save (saveOk : Bool) (old : Persisted) (st : TrackerState) : Persisted :=
  if saveOk then Persisted.good st else old

/-- `StateTracker.is_processed(filepath, s3_key=None)`. -/
def is_processed (st : TrackerState) (filepath : String) (s3_key : Option String) : Bool :=
  (TrackerState.lookup st (pyIdent filepath s3_key)).isSome

/-- `StateTracker.mark_processed`: build the entry (dropping falsy
`s3_key`/`etag` fields as the `if s3_key:` / `if etag:` guards do). -/
def mkEntry (vcon_uuid now status : String) (s3_key etag : Option String) : TrackedEntry :=
  { vcon_uuid := vcon_uuid, timestamp := now, status := status,
    s3_key := pyTruthyOpt s3_key, etag := pyTruthyOpt etag }

/-- `StateTracker.mark_processed`: upsert the entry in memory, then save.
`now` is the `datetime.utcnow().isoformat()` reading and `saveOk` the
outcome of the save attempt. -/
def mark_processed (tr : Tracker) (filepath vcon_uuid status : String)
    (s3_key etag : Option String) (now : String) (saveOk : Bool) : Tracker :=
  let identifier := pyIdent filepath s3_key
  let st := TrackerState.set tr.state identifier (mkEntry vcon_uuid now status s3_key etag)
  { state := st, storage := StateTracker.save saveOk tr.storage st }

/-- `StateTracker.get_vcon_uuid`. -/
def get_vcon_uuid (st : TrackerState) (filepath : String) (s3_key : Option String) : Option String :=
  Option.map TrackedEntry.vcon_uuid (TrackerState.lookup st (pyIdent filepath s3_key))

/-- `StateTracker.is_s3_object_processed(s3_key, etag=None)`: absent key is
`False`; a truthy (non-empty) `etag` is compared against the stored one;
otherwise presence alone answers. -/
def is_s3_object_processed (st : TrackerState) (s3_key : String) (etag : Option String) : Bool :=
  match TrackerState.lookup st s3_key with
  | none => false
  | some ent =>
    match etag with
    | some e => if e = "" then true else decide (ent.etag = some e)
    | none => true

/-! ## Date extraction and filtering (`fax_adapter/s3_monitor.py`)

`S3Monitor.DATE_PATTERNS` holds three compiled regexes, tried in order by
`_extract_date_from_key`: `(\d{4})/(\d{2})/(\d{2})`, `(\d{4})-(\d{2})-(\d{2})`,
`(\d{4})(\d{2})(\d{2})`.  Each pattern is fixed-width, so `re.search` is
exactly "the least starting index at which the shape occurs".  A shape is
represented by its optional separator character (`none` for the 8-digit
shape). -/

def digitVal (c : Char) : Nat := c.toNat - '0'.toNat

def natOfDigits (cs : List Char) : Nat := cs.foldl (fun a c => a * 10 + digitVal c) 0

/-- Match `(\d{4})sep(\d{2})sep(\d{2})` at the head of the character list,
returning the three captured groups as numbers (Python applies `int` to
each group). -/
def shapeSep (sep : Char) : List Char → Option (Nat × Nat × Nat)
  | y1 :: y2 :: y3 :: y4 :: s1 :: m1 :: m2 :: s2 :: d1 :: d2 :: _ =>
    if y1.isDigit && y2.isDigit && y3.isDigit && y4.isDigit && (s1 == sep) &&
       m1.isDigit && m2.isDigit && (s2 == sep) && d1.isDigit && d2.isDigit then
      some (natOfDigits [y1, y2, y3, y4], natOfDigits [m1, m2], natOfDigits [d1, d2])
    else none
  | _ => none

/-- Match `(\d{4})(\d{2})(\d{2})` (8 consecutive digits) at the head. -/
def shapeDigits : List Char → Option (Nat × Nat × Nat)
  | y1 :: y2 :: y3 :: y4 :: m1 :: m2 :: d1 :: d2 :: _ =>
    if y1.isDigit && y2.isDigit && y3.isDigit && y4.isDigit &&
       m1.isDigit && m2.isDigit && d1.isDigit && d2.isDigit then
      some (natOfDigits [y1, y2, y3, y4], natOfDigits [m1, m2], natOfDigits [d1, d2])
    else none
  | _ => none

def shapeAt : Option Char → List Char → Option (Nat × Nat × Nat)
  | some sep, cs => shapeSep sep cs
  | none, cs => shapeDigits cs

/-- `pattern.search(key)` for one fixed-width pattern: scan left to right
and return the groups of the leftmost occurrence. -/
def searchShape (sep : Option Char) : List Char → Option (Nat × Nat × Nat)
  | [] => none
  | c :: rest =>
    match shapeAt sep (c :: rest) with
    | some t => some t
    | none => searchShape sep rest

/-- The three date shapes of `S3Monitor.DATE_PATTERNS`, in priority order. -/
def DATE_PATTERNS : List (Option Char) := [some '/', some '-', none]

/-- A calendar date as `datetime.date` holds it. -/
structure Date where
  year : Nat
  month : Nat
  day : Nat
deriving DecidableEq, Repr

def isLeap (y : Nat) : Bool := (y % 4 == 0 && y % 100 != 0) || (y % 400 == 0)

def daysInMonth (y m : Nat) : Nat :=
  if m == 2 then (if isLeap y then 29 else 28)
  else if m == 4 || m == 6 || m == 9 || m == 11 then 30
  else 31

/-- Exactly the triples accepted by the `datetime(year, month, day)`
constructor (its `ValueError` condition): years 1..9999, months 1..12,
days valid for the month with Gregorian leap years. -/
def validDate (y m d : Nat) : Bool :=
  decide (1 ≤ y ∧ y ≤ 9999 ∧ 1 ≤ m ∧ m ≤ 12 ∧ 1 ≤ d ∧ d ≤ daysInMonth y m)

/-- `datetime.date` strict comparison (lexicographic on year, month, day). -/
def Date.ltb (a b : Date) : Bool :=
  decide (a.year < b.year ∨ (a.year = b.year ∧
    (a.month < b.month ∨ (a.month = b.month ∧ a.day < b.day))))

def Date.leb (a b : Date) : Bool := Date.ltb a b || decide (a = b)

/-- The `for pattern in self.DATE_PATTERNS` loop body of
`S3Monitor._extract_date_from_key`: search; on a match try to build the
`datetime` (a `ValueError` from an invalid calendar date is caught and the
loop moves on to the next pattern); on no match move on as well. -/
def tryPatterns : List (Option Char) → List Char → Option Date
  | [], _ => none
  | p :: rest, cs =>
    match searchShape p cs with
    | some (y, m, d) =>
      if validDate y m d then some { year := y, month := m, day := d }
      else tryPatterns rest cs
    | none => tryPatterns rest cs

/-- `S3Monitor._extract_date_from_key`. -/
def extract_date_from_key (key : String) : Option Date :=
  tryPatterns DATE_PATTERNS key.data

/-- `S3Monitor._matches_date_filter`, over the three already-parsed filter
fields (`self.date_filter`, `self.date_range_start`, `self.date_range_end`;
`datetime` objects are always truthy, so `if not a and not b and not c`
is the all-absent test). -/
def matches_date_filter (df ds de : Option Date) (key : String) : Bool :=
  if df = none ∧ ds = none ∧ de = none then true
  else
    match extract_date_from_key key with
    | none => false
    | some kd =>
      match df with
      | some d => decide (kd = d)
      | none =>
        if (match ds with | some s => Date.ltb kd s | none => false) then false
        else if (match de with | some e => Date.ltb e kd | none => false) then false
        else true

/-! ## Filename parser (`fax_adapter/parser.py`)

A compiled pattern is embedded at the interface the parser consumes it:
`pattern.match(filename)` either fails or yields the tuple of captured
groups.  `match` anchors at the start of its input, and the parser feeds it
`Path(filepath).name`, the final path segment. -/

/-- Characters after the last `/` separator. -/
def afterLastSlash (cs : List Char) : List Char :=
  (cs.reverse.takeWhile (fun c => c != '/')).reverse

/-- `Path(filepath).name`: the final path segment (trailing separators
dropped first, as `pathlib` does). -/
def basename (path : String) : String :=
  (afterLastSlash ((path.data.reverse.dropWhile (fun c => c == '/')).reverse)).asString

/-- `FilenameParser.parse`: apply the pattern to the basename; `None` when
it does not match or captures fewer than two groups; else
`(groups[0], groups[1], groups[2] if len(groups) > 2 else "")`. -/
def FilenameParser.parse (pattern : String → Option (List String)) (filepath : String) :
    Option (String × String × String) :=
  match pattern (basename filepath) with
  | none => none
  | some groups =>
    if groups.length < 2 then none
    else some (groups.getD 0 "", groups.getD 1 "", groups.getD 2 "")

/-- Longest digit prefix of a character list, with the remainder. -/
def takeDigits : List Char → List Char × List Char
  | [] => ([], [])
  | c :: rest =>
    if c.isDigit then
      let p := takeDigits rest
      (c :: p.1, p.2)
    else ([], c :: rest)

/-- The regex `(\d+)_(\d+)\.(jpg|png)` as a prefix matcher (Python
`re.match` semantics).  Because `\d+` is followed by a non-digit literal
in the pattern, greedy matching without backtracking is exact here. -/
def examplePattern (s : String) : Option (List String) :=
  match takeDigits s.data with
  | ([], _) => none
  | (g1, rest1) =>
    match rest1 with
    | '_' :: rest2 =>
      match takeDigits rest2 with
      | ([], _) => none
      | (g2, rest3) =>
        match rest3 with
        | '.' :: rest4 =>
          if rest4.take 3 = ['j', 'p', 'g'] then some [g1.asString, g2.asString, "jpg"]
          else if rest4.take 3 = ['p', 'n', 'g'] then some [g1.asString, g2.asString, "png"]
          else none
        | _ => none
    | _ => none

/-- A pattern with a single capture group, `(\d+)`, as a prefix matcher. -/
def oneGroupPattern (s : String) : Option (List String) :=
  match takeDigits s.data with
  | ([], _) => none
  | (g1, _) => some [g1.asString]

/-! ## Delivery orchestrator (`main.py`)

`FaxAdapter._process_file` and `FaxAdapter._process_file_s3` compose
parser, envelope builder, HTTP poster and tracker.  The builder and poster
are external collaborators (`builder.build` returns a vCon with a `uuid`
or `None`; `poster.post` returns a boolean), so they enter the embedding
as oracle functions, together with the clock reading and the outcomes of
the fallible filesystem / remote-delete / tracker-save side effects.
`buildCalls` and `postCalls` count collaborator invocations; the deleted
lists record the delete side effects the handler issued. -/

structure Vcon where
  uuid : String
deriving DecidableEq, Repr

structure OrchEnv where
  pattern : String → Option (List String)
  build : String → String → String → String → Option Vcon
  post : Vcon → Bool
  now : String
  saveOk : Bool
  unlinkOk : Bool
  s3DeleteOk : Bool

structure AdapterConfig where
  delete_after_send : Bool
  s3_delete_after_send : Bool
deriving DecidableEq, Repr

structure RunState where
  tracker : Tracker
  buildCalls : Nat
  postCalls : Nat
  deletedFiles : List String
  deletedObjects : List String
deriving DecidableEq, Repr

/-- `FaxAdapter._process_file(filepath)`. -/
def process_file (env : OrchEnv) (cfg : AdapterConfig) (rs : RunState) (filepath : String) :
    RunState :=
  if is_processed rs.tracker.state filepath none then rs
  else
    match FilenameParser.parse env.pattern filepath with
    | none => rs
    | some (sender, receiver, ext) =>
      let rs1 : RunState := { rs with buildCalls := rs.buildCalls + 1 }
      match env.build filepath sender receiver ext with
      | none => rs1
      | some vcon =>
        let rs2 : RunState := { rs1 with postCalls := rs1.postCalls + 1 }
        if env.post vcon then
          let rs3 : RunState := { rs2 with
            tracker := mark_processed rs2.tracker filepath vcon.uuid "success" none none env.now env.saveOk }
          if cfg.delete_after_send then
            if env.unlinkOk then { rs3 with deletedFiles := rs3.deletedFiles ++ [filepath] }
            else rs3
          else rs3
        else
          { rs2 with
            tracker := mark_processed rs2.tracker filepath vcon.uuid "failed" none none env.now env.saveOk }

/-- `FaxAdapter._process_file_s3(filepath, s3_key)`: the skip check passes
`s3_key` to `is_processed`, the parse runs on the key, the build on the
local temp file, and the tracker marks carry `s3_key` (and no etag). -/
def process_file_s3 (env : OrchEnv) (cfg : AdapterConfig) (rs : RunState)
    (filepath s3_key : String) : RunState :=
  if is_processed rs.tracker.state filepath (some s3_key) then rs
  else
    match FilenameParser.parse env.pattern s3_key with
    | none => rs
    | some (sender, receiver, ext) =>
      let rs1 : RunState := { rs with buildCalls := rs.buildCalls + 1 }
      match env.build filepath sender receiver ext with
      | none => rs1
      | some vcon =>
        let rs2 : RunState := { rs1 with postCalls := rs1.postCalls + 1 }
        if env.post vcon then
          let rs3 : RunState := { rs2 with
            tracker := mark_processed rs2.tracker filepath vcon.uuid "success" (some s3_key) none env.now env.saveOk }
          if cfg.s3_delete_after_send then
            if env.s3DeleteOk then { rs3 with deletedObjects := rs3.deletedObjects ++ [s3_key] }
            else rs3
          else rs3
        else
          { rs2 with
            tracker := mark_processed rs2.tracker filepath vcon.uuid "failed" (some s3_key) none env.now env.saveOk }

/-! ## Adapter construction (`main.py` and `fax_adapter/poster.py`)

`FaxAdapter.__init__` constructs, in textual order: the parser, the
builder, the poster, the tracker, then the monitor.  The poster call site
passes three positional arguments (`conserver_url`, headers,
`ingress_lists`) while `HttpPoster.__init__` declares two positional
parameters (`url`, `headers`); Python raises `TypeError` when the counts
disagree.  The trace component records which components were constructed
before the outcome. -/

inductive PyError where
  | typeError : PyError
  | valueError : PyError
deriving DecidableEq, Repr

structure HttpPoster where
  url : String
  headers : List (String × String)
deriving DecidableEq, Repr

/-- Number of positional parameters of `HttpPoster.__init__` after `self`:
`(url, headers)`. -/
def HttpPoster.initArity : Nat := 2

/-- Python positional-call semantics for a fixed-arity callable: a wrong
argument count raises `TypeError` without running the body. -/
def pyCall {α : Type} (arity argCount : Nat) (mk : Unit → α) : Except PyError α :=
  if argCount = arity then Except.ok (mk ()) else Except.error PyError.typeError

/-- The already-validated configuration values `FaxAdapter.__init__`
consumes (`Config` guarantees a recognised `source_type` and required
non-empty fields). -/
structure Config where
  source_type : String
  watch_directory : String
  s3_bucket_name : String
  conserver_url : String
  ingress_lists : List String
  state_file : String
deriving DecidableEq, Repr

def validConfig (cfg : Config) : Prop :=
  (cfg.source_type = "filesystem" ∨ cfg.source_type = "s3") ∧
  (cfg.source_type = "filesystem" → cfg.watch_directory ≠ "") ∧
  (cfg.source_type = "s3" → cfg.s3_bucket_name ≠ "") ∧
  cfg.conserver_url ≠ ""

structure FaxAdapterObj where
  poster : HttpPoster
  monitorTag : String
deriving DecidableEq, Repr

/-- `FaxAdapter.__init__`: the component-construction sequence, returning
the list of components constructed so far together with the outcome.  The
poster is constructed with three positional arguments, before the tracker
and the monitor. -/
def FaxAdapter.init (cfg : Config) : List String × Except PyError FaxAdapterObj :=
  let constructed := ["parser", "builder"]
  match pyCall HttpPoster.initArity 3
      (fun _ => ({ url := cfg.conserver_url, headers := [] } : HttpPoster)) with
  | Except.error e => (constructed, Except.error e)
  | Except.ok poster =>
    let constructed2 := constructed ++ ["poster", "tracker"]
    if cfg.source_type = "filesystem" then
      (constructed2 ++ ["monitor"], Except.ok { poster := poster, monitorTag := "filesystem" })
    else if cfg.source_type = "s3" then
      (constructed2 ++ ["monitor"], Except.ok { poster := poster, monitorTag := "s3" })
    else (constructed2, Except.error PyError.valueError)

/-! ## Tracker run helpers for the persistence claims -/

/-- Mark a batch of (identifier, envelope id) pairs processed with status
`"success"`, every save succeeding. -/
def runMarks (tr : Tracker) (marks : List (String × String)) (now : String) : Tracker :=
  marks.foldl (fun t m => mark_processed t m.1 m.2 "success" none none now true) tr

/-- The envelope id recorded last for an identifier by a batch of marks. -/
def lastUuid : List (String × String) → String → Option String
  | [], _ => none
  | m :: rest, k =>
    match lastUuid rest k with
    | some u => some u
    | none => if m.1 = k then some m.2 else none

/-! ## Concrete demonstration inputs used by witnesses -/

def demoEntry : TrackedEntry :=
  { vcon_uuid := "E1", timestamp := "t1", status := "success",
    s3_key := some "111_222.jpg", etag := some "etag1" }

def demoState : TrackerState := [("111_222.jpg", demoEntry)]

/-- A run state whose tracker already holds `demoEntry` for the remote key
`111_222.jpg`, recorded under fingerprint `"etag1"`. -/
def demoRS : RunState :=
  { tracker := { state := demoState, storage := Persisted.good demoState },
    buildCalls := 0, postCalls := 0, deletedFiles := [], deletedObjects := [] }

/-- An empty initial run state. -/
def emptyRS : RunState :=
  { tracker := { state := [], storage := Persisted.absent },
    buildCalls := 0, postCalls := 0, deletedFiles := [], deletedObjects := [] }

/-- Oracle environment whose post succeeds. -/
def demoEnvTrue : OrchEnv :=
  { pattern := examplePattern,
    build := fun _ _ _ _ => some { uuid := "E1" },
    post := fun _ => true,
    now := "t2", saveOk := true, unlinkOk := true, s3DeleteOk := true }

/-- Oracle environment whose post fails. -/
def demoEnvFalse : OrchEnv :=
  { pattern := examplePattern,
    build := fun _ _ _ _ => some { uuid := "E1" },
    post := fun _ => false,
    now := "t2", saveOk := true, unlinkOk := true, s3DeleteOk := true }

/-- Both delete-after-send flags enabled. -/
def demoCfg : AdapterConfig := { delete_after_send := true, s3_delete_after_send := true }

def demoConfig : Config :=
  { source_type := "filesystem", watch_directory := "/faxes", s3_bucket_name := "",
    conserver_url := "http://conserver:8000/vcon", ingress_lists := ["fax"],
    state_file := ".fax_adapter_state.json" }

/-! ## Helper lemmas -/

theorem lookup_set_self (st : TrackerState) (k : String) (v : TrackedEntry) :
    TrackerState.lookup (TrackerState.set st k v) k = some v := by
  induction st with
  | nil => simp [TrackerState.set, TrackerState.lookup]
  | cons hd tl ih =>
    obtain ⟨k0, v0⟩ := hd
    by_cases h : k0 = k
    · simp [TrackerState.set, TrackerState.lookup, h]
    · simp [TrackerState.set, TrackerState.lookup, h, ih]

theorem lookup_set_ne (st : TrackerState) (k k2 : String) (v : TrackedEntry)
    (h : k2 ≠ k) :
    TrackerState.lookup (TrackerState.set st k v) k2 = TrackerState.lookup st k2 := by
  induction st with
  | nil => simp [TrackerState.set, TrackerState.lookup, Ne.symm h]
  | cons hd tl ih =>
    obtain ⟨k0, v0⟩ := hd
    by_cases h0 : k0 = k
    · subst h0
      simp [TrackerState.set, TrackerState.lookup, Ne.symm h]
    · simp [TrackerState.set, TrackerState.lookup, h0, ih]

theorem shapeAt_nil (sep : Option Char) : shapeAt sep [] = none := by
  cases sep <;> rfl

theorem searchShape_of_at (sep : Option Char) :
    ∀ (cs : List Char) (i : Nat) (t : Nat × Nat × Nat),
      shapeAt sep (cs.drop i) = some t →
      (∀ j, j < i → shapeAt sep (cs.drop j) = none) →
      searchShape sep cs = some t := by
  intro cs
  induction cs with
  | nil =>
    intro i t h _
    rw [List.drop_nil, shapeAt_nil] at h
    exact absurd h (by simp)
  | cons c rest ih =>
    intro i t h hmin
    cases i with
    | zero =>
      rw [List.drop_zero] at h
      unfold searchShape
      rw [h]
    | succ i0 =>
      have h0 : shapeAt sep (c :: rest) = none := by
        simpa using hmin 0 (Nat.succ_pos i0)
      unfold searchShape
      rw [h0]
      exact ih i0 t (by simpa using h)
        (fun j hj => by simpa using hmin (j + 1) (Nat.succ_lt_succ hj))

theorem searchShape_eq_none_iff (sep : Option Char) :
    ∀ cs : List Char,
      searchShape sep cs = none ↔ ∀ i, shapeAt sep (cs.drop i) = none := by
  intro cs
  induction cs with
  | nil => simp [searchShape, shapeAt_nil]
  | cons c rest ih =>
    constructor
    · intro h i
      unfold searchShape at h
      cases h0 : shapeAt sep (c :: rest) with
      | some t => rw [h0] at h; simp at h
      | none =>
        rw [h0] at h
        cases i with
        | zero => simpa using h0
        | succ j => simpa using (ih.mp h) j
    · intro h
      have h0 : shapeAt sep (c :: rest) = none := by simpa using h 0
      unfold searchShape
      rw [h0]
      exact ih.mpr (fun i => by simpa using h (i + 1))

theorem runMarks_lookup (now : String) :
    ∀ (marks : List (String × String)) (tr : Tracker) (k : String),
      TrackerState.lookup (runMarks tr marks now).state k =
        (match lastUuid marks k with
         | some u => some (mkEntry u now "success" none none)
         | none => TrackerState.lookup tr.state k) := by
  intro marks
  induction marks with
  | nil => intro tr k; rfl
  | cons m rest ih =>
    intro tr k
    have hfold : runMarks tr (m :: rest) now =
        runMarks (mark_processed tr m.1 m.2 "success" none none now true) rest now := rfl
    rw [hfold, ih]
    cases h1 : lastUuid rest k with
    | some u => simp [lastUuid, h1]
    | none =>
      by_cases hk : m.1 = k
      · subst hk
        simp [lastUuid, h1, mark_processed, pyIdent, pyTruthyOpt, lookup_set_self]
      · simp [lastUuid, h1, hk, mark_processed, pyIdent, pyTruthyOpt,
          lookup_set_ne _ _ _ _ (Ne.symm hk)]

theorem runMarks_storage (now : String) :
    ∀ (marks : List (String × String)) (tr : Tracker), marks ≠ [] →
      (runMarks tr marks now).storage = Persisted.good (runMarks tr marks now).state := by
  intro marks
  induction marks with
  | nil => intro tr h; exact absurd rfl h
  | cons m rest ih =>
    intro tr _
    cases rest with
    | nil => simp [runMarks, mark_processed, StateTracker.save]
    | cons m2 rest2 =>
      have hfold : runMarks tr (m :: m2 :: rest2) now =
          runMarks (mark_processed tr m.1 m.2 "success" none none now true) (m2 :: rest2) now := rfl
      rw [hfold]
      exact ih _ (by simp)

theorem oneGroupPattern_length (s : String) (gs : List String)
    (h : oneGroupPattern s = some gs) : gs.length = 1 := by
  unfold oneGroupPattern at h
  cases hm : takeDigits s.data with
  | mk g1 rest =>
    rw [hm] at h
    cases g1 with
    | nil => simp at h
    | cons c cs =>
      simp only [Option.some.injEq] at h
      subst h
      rfl

/-! ## Claim theorems -/

/-- Claim C4: the tracker's fingerprint-aware query
`StateTracker.is_s3_object_processed` returns false when the key is absent
from the store; when a (non-empty, hence truthy) fingerprint is given it
returns true exactly when the stored fingerprint equals the given one (so
a differing fingerprint reads as a changed object); with no fingerprint it
returns true iff the key is present. -/
theorem C4_fingerprint_query (st : TrackerState) (k : String) :
    (TrackerState.lookup st k = none →
      ∀ f : Option String, is_s3_object_processed st k f = false) ∧
    (∀ (f : String) (ent : TrackedEntry), f ≠ "" → TrackerState.lookup st k = some ent →
      (is_s3_object_processed st k (some f) = true ↔ ent.etag = some f)) ∧
    (is_s3_object_processed st k none = (TrackerState.lookup st k).isSome) := by
  refine ⟨?_, ?_, ?_⟩
  · intro h f
    cases f <;> simp [is_s3_object_processed, h]
  · intro f ent hf hent
    simp [is_s3_object_processed, hent, hf]
  · cases h : TrackerState.lookup st k <;> simp [is_s3_object_processed, h]

/-- Witness for C4, at the spec's own example: key marked with fingerprint
`etag1` answers true under `etag1`, false under `etag2`, true with no
fingerprint; an absent key answers false. -/
theorem C4_fingerprint_query_witness :
    is_s3_object_processed ([] : TrackerState) "111_222.jpg" (some "etag1") = false ∧
    is_s3_object_processed demoState "111_222.jpg" (some "etag1") = true ∧
    is_s3_object_processed demoState "111_222.jpg" (some "etag2") = false ∧
    is_s3_object_processed demoState "111_222.jpg" none = true := by
  refine ⟨(C4_fingerprint_query [] "111_222.jpg").1 rfl (some "etag1"), ?_, ?_, ?_⟩
  · exact ((C4_fingerprint_query demoState "111_222.jpg").2.1 "etag1" demoEntry
      (by decide) (by decide)).mpr (by decide)
  · have hiff := (C4_fingerprint_query demoState "111_222.jpg").2.1 "etag2" demoEntry
      (by decide) (by decide)
    by_cases hb : is_s3_object_processed demoState "111_222.jpg" (some "etag2") = true
    · exact absurd (hiff.mp hb) (by decide)
    · simpa using hb
  · have h3 := (C4_fingerprint_query demoState "111_222.jpg").2.2
    simpa using h3

/-- Claim C8: marking identifiers processed with all saves succeeding, then
constructing a fresh tracker against the same persisted location, reports
every marked identifier as processed and returns the envelope id last
recorded for it. -/
theorem C8_persistence_round_trip (tr : Tracker) (marks : List (String × String))
    (now k u : String) (h : lastUuid marks k = some u) :
    is_processed (StateTracker.ofStorage (runMarks tr marks now).storage).state k none = true ∧
    get_vcon_uuid (StateTracker.ofStorage (runMarks tr marks now).storage).state k none = some u := by
  have hne : marks ≠ [] := by
    intro he
    rw [he] at h
    simp [lastUuid] at h
  have hst : (StateTracker.ofStorage (runMarks tr marks now).storage).state =
      (runMarks tr marks now).state := by
    rw [runMarks_storage now marks tr hne]
    rfl
  have hl : TrackerState.lookup (runMarks tr marks now).state k =
      some (mkEntry u now "success" none none) := by
    rw [runMarks_lookup now marks tr k, h]
  constructor
  · simp [is_processed, pyIdent, pyTruthyOpt, hst, hl]
  · simp [get_vcon_uuid, pyIdent, pyTruthyOpt, hst, hl, mkEntry]

/-- Witness for C8: three identifiers marked through a fresh tracker; a
reloaded tracker reports them processed with the original envelope ids. -/
theorem C8_persistence_round_trip_witness :
    is_processed (StateTracker.ofStorage (runMarks
      { state := [], storage := Persisted.absent }
      [("a.jpg", "U1"), ("b.jpg", "U2"), ("c.jpg", "U3")] "t0").storage).state "b.jpg" none = true ∧
    get_vcon_uuid (StateTracker.ofStorage (runMarks
      { state := [], storage := Persisted.absent }
      [("a.jpg", "U1"), ("b.jpg", "U2"), ("c.jpg", "U3")] "t0").storage).state "b.jpg" none = some "U2" :=
  C8_persistence_round_trip { state := [], storage := Persisted.absent }
    [("a.jpg", "U1"), ("b.jpg", "U2"), ("c.jpg", "U3")] "t0" "b.jpg" "U2" (by decide)

/-- Claim C9: tracker storage failures are non-fatal.  Loading a corrupt
persisted file yields the empty store (the exception is caught, modelled
by `StateTracker.load` being total), and a failed save after
`mark_processed` leaves the in-memory store holding the new entry while
the persisted content is simply left as it was (no exception is
propagated: `mark_processed` is total). -/
theorem C9_storage_failures_nonfatal :
    StateTracker.load Persisted.corrupt = ([] : TrackerState) ∧
    ∀ (tr : Tracker) (fp uuid status : String) (s3k etag : Option String) (now : String),
      TrackerState.lookup (mark_processed tr fp uuid status s3k etag now false).state
          (pyIdent fp s3k) = some (mkEntry uuid now status s3k etag) ∧
      (mark_processed tr fp uuid status s3k etag now false).storage = tr.storage := by
  refine ⟨rfl, ?_⟩
  intro tr fp uuid status s3k etag now
  exact ⟨by simp [mark_processed, lookup_set_self], rfl⟩

/-- Claim C7: `FilenameParser.parse` applies the configured pattern to the
final path segment; `NO_MATCH` (`none`) when the pattern does not match or
captures fewer than two groups (in particular a one-group pattern never
parses); on a match with at least two groups the result is
(group1, group2, group3-or-empty); the spec's concrete examples follow. -/
theorem C7_parser_contract :
    (∀ (pat : String → Option (List String)) (path : String),
      (pat (basename path) = none → FilenameParser.parse pat path = none) ∧
      (∀ gs, pat (basename path) = some gs → gs.length < 2 →
        FilenameParser.parse pat path = none) ∧
      (∀ gs, pat (basename path) = some gs → 2 ≤ gs.length →
        FilenameParser.parse pat path = some (gs.getD 0 "", gs.getD 1 "", gs.getD 2 "")) ∧
      (∀ g1 g2, pat (basename path) = some [g1, g2] →
        FilenameParser.parse pat path = some (g1, g2, ""))) ∧
    FilenameParser.parse examplePattern "15085551212_15085551313.jpg" =
      some ("15085551212", "15085551313", "jpg") ∧
    FilenameParser.parse examplePattern "invalid.txt" = none ∧
    (∀ path, FilenameParser.parse oneGroupPattern path = none) := by
  refine ⟨?_, by decide, by decide, ?_⟩
  · intro pat path
    refine ⟨?_, ?_, ?_, ?_⟩
    · intro h
      simp [FilenameParser.parse, h]
    · intro gs h hl
      simp [FilenameParser.parse, h, hl]
    · intro gs h hl
      simp [FilenameParser.parse, h, Nat.not_lt.mpr hl]
    · intro g1 g2 h
      simp [FilenameParser.parse, h, List.getD]
  · intro path
    cases h : oneGroupPattern (basename path) with
    | none => simp [FilenameParser.parse, h]
    | some gs =>
      have hlen := oneGroupPattern_length (basename path) gs h
      simp [FilenameParser.parse, h, hlen]

/-- Witness for C7: the general clauses applied at concrete patterns and
paths (pattern applied to the basename of a nested path; a two-group
match filling the extension with the empty string; a one-group pattern
and a non-matching pattern yielding `NO_MATCH`). -/
theorem C7_parser_contract_witness :
    FilenameParser.parse examplePattern "dir/15085551212_15085551313.jpg" =
      some ("15085551212", "15085551313", "jpg") ∧
    FilenameParser.parse (fun _ => some ["a", "b"]) "p" = some ("a", "b", "") ∧
    FilenameParser.parse (fun _ => some ["only"]) "p" = none ∧
    FilenameParser.parse (fun _ => none) "p" = none := by
  refine ⟨?_, ?_, ?_, ?_⟩
  · exact (C7_parser_contract.1 examplePattern "dir/15085551212_15085551313.jpg").2.2.1
      ["15085551212", "15085551313", "jpg"] (by decide) (by decide)
  · exact (C7_parser_contract.1 (fun _ => some ["a", "b"]) "p").2.2.2 "a" "b" rfl
  · exact (C7_parser_contract.1 (fun _ => some ["only"]) "p").2.1 ["only"] rfl (by decide)
  · exact (C7_parser_contract.1 (fun _ => none) "p").1 rfl

theorem ltb_leb_connection (a b : Date) :
    Date.ltb a b = false ↔ Date.leb b a = true := by
  obtain ⟨y1, m1, d1⟩ := a
  obtain ⟨y2, m2, d2⟩ := b
  simp [Date.ltb, Date.leb, Date.mk.injEq]
  omega

/-- Claim C5: with no filter field configured every key passes the date
filter; with any field configured a key without an extractable date is
rejected; under an exact-date filter a key passes iff its extracted date
equals the configured date; under a [start, end] range filter a key with
an extracted date passes iff that date lies within the inclusive bounds. -/
theorem C5_date_filter_asymmetry (df ds de : Option Date) (key : String) :
    (df = none → ds = none → de = none → matches_date_filter df ds de key = true) ∧
    ((df ≠ none ∨ ds ≠ none ∨ de ≠ none) → extract_date_from_key key = none →
      matches_date_filter df ds de key = false) ∧
    (∀ d : Date, df = some d →
      (matches_date_filter df ds de key = true ↔ extract_date_from_key key = some d)) ∧
    (∀ (s e kd : Date), df = none → ds = some s → de = some e →
      extract_date_from_key key = some kd →
      (matches_date_filter df ds de key = true ↔
        (Date.leb s kd = true ∧ Date.leb kd e = true))) := by
  refine ⟨?_, ?_, ?_, ?_⟩
  · intro h1 h2 h3
    simp [matches_date_filter, h1, h2, h3]
  · intro hne hex
    have hcond : ¬(df = none ∧ ds = none ∧ de = none) := by tauto
    unfold matches_date_filter
    rw [if_neg hcond, hex]
  · intro d hdf
    subst hdf
    have hcond : ¬((some d : Option Date) = none ∧ ds = none ∧ de = none) := by simp
    unfold matches_date_filter
    rw [if_neg hcond]
    cases hex : extract_date_from_key key <;> simp [hex]
  · intro s e kd h1 h2 h3 hex
    subst h1
    subst h2
    subst h3
    have hcond : ¬((none : Option Date) = none ∧ (some s : Option Date) = none ∧
        (some e : Option Date) = none) := by simp
    unfold matches_date_filter
    rw [if_neg hcond, hex]
    rw [← ltb_leb_connection kd s, ← ltb_leb_connection e kd]
    cases h5 : Date.ltb kd s <;> cases h6 : Date.ltb e kd <;> simp [h5, h6]

/-- Witness for C5, on the spec's example keys: no filter admits the
undated key; an exact filter `2024/12/15` rejects the undated key and
admits the key embedding that date; the range `[2024/12/15, 2024/12/16]`
admits the key embedding `2024-12-16`. -/
theorem C5_date_filter_asymmetry_witness :
    matches_date_filter none none none "nodate.jpg" = true ∧
    matches_date_filter (some { year := 2024, month := 12, day := 15 }) none none
      "nodate.jpg" = false ∧
    matches_date_filter (some { year := 2024, month := 12, day := 15 }) none none
      "faxes/2024/12/15/a.jpg" = true ∧
    matches_date_filter none (some { year := 2024, month := 12, day := 15 })
      (some { year := 2024, month := 12, day := 16 }) "2024-12-16_b.jpg" = true := by
  refine ⟨(C5_date_filter_asymmetry none none none "nodate.jpg").1 rfl rfl rfl, ?_, ?_, ?_⟩
  · exact (C5_date_filter_asymmetry (some { year := 2024, month := 12, day := 15 })
      none none "nodate.jpg").2.1 (Or.inl (by simp)) (by decide)
  · exact ((C5_date_filter_asymmetry (some { year := 2024, month := 12, day := 15 })
      none none "faxes/2024/12/15/a.jpg").2.2.1
      { year := 2024, month := 12, day := 15 } rfl).mpr (by decide)
  · exact ((C5_date_filter_asymmetry none (some { year := 2024, month := 12, day := 15 })
      (some { year := 2024, month := 12, day := 16 }) "2024-12-16_b.jpg").2.2.2
      { year := 2024, month := 12, day := 15 } { year := 2024, month := 12, day := 16 }
      { year := 2024, month := 12, day := 16 } rfl rfl rfl (by decide)).mpr (by decide)

/-- Claim C6: `S3Monitor._extract_date_from_key` tries the three shapes
`YYYY/MM/DD`, `YYYY-MM-DD`, `YYYYMMDD` in that fixed order, taking each
pattern's leftmost occurrence in the key.  (1) If the first shape's
leftmost occurrence forms a valid calendar date it is the result, with no
condition on the later shapes (a later pattern matching elsewhere cannot
override it).  (2) If the first shape occurs nowhere, the second shape's
leftmost valid occurrence governs.  (3) If the first shape's leftmost
occurrence is not a valid calendar date, the pattern is abandoned and a
later pattern's leftmost valid occurrence is the result instead. -/
theorem C6_date_extraction_order (key : String) :
    (∀ (i y m d : Nat),
      shapeAt (some '/') (key.data.drop i) = some (y, m, d) →
      (∀ j, j < i → shapeAt (some '/') (key.data.drop j) = none) →
      validDate y m d = true →
      extract_date_from_key key = some { year := y, month := m, day := d }) ∧
    ((∀ i, shapeAt (some '/') (key.data.drop i) = none) →
      ∀ (i y m d : Nat),
        shapeAt (some '-') (key.data.drop i) = some (y, m, d) →
        (∀ j, j < i → shapeAt (some '-') (key.data.drop j) = none) →
        validDate y m d = true →
        extract_date_from_key key = some { year := y, month := m, day := d }) ∧
    (∀ (i y m d : Nat),
      shapeAt (some '/') (key.data.drop i) = some (y, m, d) →
      (∀ j, j < i → shapeAt (some '/') (key.data.drop j) = none) →
      validDate y m d = false →
      (∀ i2, shapeAt (some '-') (key.data.drop i2) = none) →
      ∀ (i3 y3 m3 d3 : Nat),
        shapeAt none (key.data.drop i3) = some (y3, m3, d3) →
        (∀ j, j < i3 → shapeAt none (key.data.drop j) = none) →
        validDate y3 m3 d3 = true →
        extract_date_from_key key = some { year := y3, month := m3, day := d3 }) := by
  refine ⟨?_, ?_, ?_⟩
  · intro i y m d hat hmin hv
    have hs := searchShape_of_at (some '/') key.data i (y, m, d) hat hmin
    simp [extract_date_from_key, DATE_PATTERNS, tryPatterns, hs, hv]
  · intro hnone i y m d hat hmin hv
    have h1 : searchShape (some '/') key.data = none :=
      (searchShape_eq_none_iff (some '/') key.data).mpr hnone
    have hs := searchShape_of_at (some '-') key.data i (y, m, d) hat hmin
    simp [extract_date_from_key, DATE_PATTERNS, tryPatterns, h1, hs, hv]
  · intro i y m d hat hmin hv hnone2 i3 y3 m3 d3 hat3 hmin3 hv3
    have hs1 := searchShape_of_at (some '/') key.data i (y, m, d) hat hmin
    have h2 : searchShape (some '-') key.data = none :=
      (searchShape_eq_none_iff (some '-') key.data).mpr hnone2
    have hs3 := searchShape_of_at none key.data i3 (y3, m3, d3) hat3 hmin3
    simp [extract_date_from_key, DATE_PATTERNS, tryPatterns, hs1, hv, h2, hs3, hv3]

/-- Witness for C6: a key whose slash-shape occurrence (leftmost at index
2) is valid; a key with no slash shape whose dash shape governs; and a key
whose slash-shape occurrence `9999/99/99` is an invalid calendar date, so
the 8-digit shape's occurrence at index 11 governs instead. -/
theorem C6_date_extraction_order_witness :
    extract_date_from_key "a/2024/12/15.jpg" =
      some { year := 2024, month := 12, day := 15 } ∧
    extract_date_from_key "b_2024-12-16.png" =
      some { year := 2024, month := 12, day := 16 } ∧
    extract_date_from_key "9999/99/99_20241215.tif" =
      some { year := 2024, month := 12, day := 15 } := by
  refine ⟨?_, ?_, ?_⟩
  · exact (C6_date_extraction_order "a/2024/12/15.jpg").1 2 2024 12 15
      (by decide) (by decide) (by decide)
  · exact (C6_date_extraction_order "b_2024-12-16.png").2.1
      ((searchShape_eq_none_iff (some '/') ("b_2024-12-16.png").data).mp (by decide))
      2 2024 12 16 (by decide) (by decide) (by decide)
  · exact (C6_date_extraction_order "9999/99/99_20241215.tif").2.2 0 9999 99 99
      (by decide) (by decide) (by decide)
      ((searchShape_eq_none_iff (some '-') ("9999/99/99_20241215.tif").data).mp (by decide))
      11 2024 12 15 (by decide) (by decide) (by decide)

theorem process_file_skip_of (env : OrchEnv) (cfg : AdapterConfig) (rs : RunState)
    (fp : String) (h : is_processed rs.tracker.state fp none = true) :
    process_file env cfg rs fp = rs := by
  unfold process_file
  rw [h]
  simp

theorem process_file_s3_skip_of (env : OrchEnv) (cfg : AdapterConfig) (rs : RunState)
    (fp key : String) (h : is_processed rs.tracker.state fp (some key) = true) :
    process_file_s3 env cfg rs fp key = rs := by
  unfold process_file_s3
  rw [h]
  simp

/-- Claim C1: for every valid configuration, `FaxAdapter.__init__` raises
`TypeError` before any monitor is constructed (let alone started): the
poster is built with three positional arguments while
`HttpPoster.__init__` accepts two, and the poster construction precedes
the monitor construction, so the main entry point can never produce a
working pipeline. -/
theorem C1_poster_arity_type_error (cfg : Config) (h : validConfig cfg) :
    (FaxAdapter.init cfg).2 = Except.error PyError.typeError ∧
    "monitor" ∉ (FaxAdapter.init cfg).1 := by
  constructor
  · simp [FaxAdapter.init, pyCall, HttpPoster.initArity]
  · simp [FaxAdapter.init, pyCall, HttpPoster.initArity]

/-- Witness for C1: a concrete valid filesystem configuration on which
construction fails with `TypeError` and no monitor is ever constructed. -/
theorem C1_poster_arity_type_error_witness :
    validConfig demoConfig ∧
    (FaxAdapter.init demoConfig).2 = Except.error PyError.typeError ∧
    "monitor" ∉ (FaxAdapter.init demoConfig).1 := by
  have hv : validConfig demoConfig := by
    refine ⟨Or.inl rfl, fun _ => by decide, fun hs => ?_, by decide⟩
    · exact absurd hs (by decide)
  exact ⟨hv, (C1_poster_arity_type_error demoConfig hv).1,
    (C1_poster_arity_type_error demoConfig hv).2⟩

/-- Claim C2 counterexample.  The claim says the orchestrator's
already-processed skip check is fingerprint-aware: a candidate whose
remote key is tracked under a different fingerprint must NOT be skipped.
Concretely: the tracker holds key `111_222.jpg` recorded with fingerprint
`"etag1"` (see `demoEntry`), and the polled object now carries fingerprint
`"etag2"`.  `FaxAdapter._process_file_s3` receives only
`(filepath, s3_key)` — no fingerprint at all — and its check
`is_processed(filepath, s3_key=...)` tests key membership only, so the
candidate IS skipped: the handler returns with the run state unchanged and
the builder never invoked, refuting the claim. -/
theorem C2_fingerprint_skip_counterexample :
    demoEntry.etag = some "etag1" ∧
    process_file_s3 demoEnvTrue demoCfg demoRS "/tmp/dl.jpg" "111_222.jpg" = demoRS ∧
    (process_file_s3 demoEnvTrue demoCfg demoRS "/tmp/dl.jpg" "111_222.jpg").buildCalls = 0 := by
  refine ⟨rfl, ?_, ?_⟩ <;> decide

/-- Claim C2 (amended): the orchestrator's skip check is identifier-only.
For every object-storage candidate whose remote key has any tracker entry
— whatever fingerprint that entry stores, and whatever the object's
current fingerprint is (the handler receives none) — the candidate is
skipped and the handler is a no-op. -/
theorem C2_amended_identifier_only_skip (env : OrchEnv) (cfg : AdapterConfig)
    (rs : RunState) (fp key : String) (hk : key ≠ "")
    (h : (TrackerState.lookup rs.tracker.state key).isSome = true) :
    process_file_s3 env cfg rs fp key = rs := by
  apply process_file_s3_skip_of
  simpa [is_processed, pyIdent, pyTruthyOpt, hk] using h

/-- Witness for the amended C2, at the counterexample's input. -/
theorem C2_amended_identifier_only_skip_witness :
    process_file_s3 demoEnvTrue demoCfg demoRS "/tmp/dl.jpg" "111_222.jpg" = demoRS :=
  C2_amended_identifier_only_skip demoEnvTrue demoCfg demoRS "/tmp/dl.jpg" "111_222.jpg"
    (by decide) (by decide)

/-- Claim C3: the per-file handler is idempotent.  If the first invocation
for an identifier gets past the tracker check, parses, builds, and reaches
the post attempt (whatever the post outcome and the delete configuration),
then the second invocation with the same identifier is a no-op, and
exactly one build and one post occur across the two calls. -/
theorem C3_handler_idempotent (env : OrchEnv) (cfg : AdapterConfig) (rs : RunState)
    (fp sender receiver ext : String) (v : Vcon)
    (h0 : TrackerState.lookup rs.tracker.state fp = none)
    (hp : FilenameParser.parse env.pattern fp = some (sender, receiver, ext))
    (hb : env.build fp sender receiver ext = some v) :
    process_file env cfg (process_file env cfg rs fp) fp = process_file env cfg rs fp ∧
    (process_file env cfg rs fp).buildCalls = rs.buildCalls + 1 ∧
    (process_file env cfg rs fp).postCalls = rs.postCalls + 1 := by
  have hip : is_processed rs.tracker.state fp none = false := by
    simp [is_processed, pyIdent, pyTruthyOpt, h0]
  have key : (TrackerState.lookup (process_file env cfg rs fp).tracker.state fp).isSome = true ∧
      (process_file env cfg rs fp).buildCalls = rs.buildCalls + 1 ∧
      (process_file env cfg rs fp).postCalls = rs.postCalls + 1 := by
    unfold process_file
    rw [hip]
    simp only [Bool.false_eq_true, if_false, hp, hb]
    cases hpost : env.post v <;>
      cases hd : cfg.delete_after_send <;>
        cases hu : env.unlinkOk <;>
          simp [mark_processed, pyIdent, pyTruthyOpt, lookup_set_self]
  have hip2 : is_processed (process_file env cfg rs fp).tracker.state fp none = true := by
    simpa [is_processed, pyIdent, pyTruthyOpt] using key.1
  exact ⟨process_file_skip_of env cfg (process_file env cfg rs fp) fp hip2, key.2.1, key.2.2⟩

/-- Witness for C3: on a fresh run state, processing `111_222.jpg` twice
performs exactly one build and one post, the second call being a no-op. -/
theorem C3_handler_idempotent_witness :
    process_file demoEnvTrue demoCfg (process_file demoEnvTrue demoCfg emptyRS "111_222.jpg")
      "111_222.jpg" = process_file demoEnvTrue demoCfg emptyRS "111_222.jpg" ∧
    (process_file demoEnvTrue demoCfg emptyRS "111_222.jpg").buildCalls = 1 ∧
    (process_file demoEnvTrue demoCfg emptyRS "111_222.jpg").postCalls = 1 :=
  C3_handler_idempotent demoEnvTrue demoCfg emptyRS "111_222.jpg" "111" "222" "jpg"
    { uuid := "E1" } (by decide) (by decide) (by decide)

/-- Claim C10: when the build succeeds but the post returns false, both
handlers write a tracker entry with status `"failed"` that still records
the envelope's id, and neither deletes the source (local file or remote
object), whatever the delete-after-send flags say (the configuration is
universally quantified). -/
theorem C10_post_failure_failed_entry_no_delete (env : OrchEnv) (cfg : AdapterConfig)
    (rs : RunState) (fp key sender receiver ext : String) (v : Vcon)
    (hb : env.build fp sender receiver ext = some v)
    (hpost : env.post v = false) (hk : key ≠ "") :
    (FilenameParser.parse env.pattern fp = some (sender, receiver, ext) →
      TrackerState.lookup rs.tracker.state fp = none →
      (TrackerState.lookup (process_file env cfg rs fp).tracker.state fp =
        some (mkEntry v.uuid env.now "failed" none none) ∧
       (process_file env cfg rs fp).deletedFiles = rs.deletedFiles)) ∧
    (FilenameParser.parse env.pattern key = some (sender, receiver, ext) →
      TrackerState.lookup rs.tracker.state key = none →
      (TrackerState.lookup (process_file_s3 env cfg rs fp key).tracker.state key =
        some (mkEntry v.uuid env.now "failed" (some key) none) ∧
       (process_file_s3 env cfg rs fp key).deletedObjects = rs.deletedObjects)) := by
  constructor
  · intro hp h0
    have hip : is_processed rs.tracker.state fp none = false := by
      simp [is_processed, pyIdent, pyTruthyOpt, h0]
    unfold process_file
    rw [hip]
    simp [hp, hb, hpost, mark_processed, pyIdent, pyTruthyOpt, lookup_set_self]
  · intro hp h0
    have hip : is_processed rs.tracker.state fp (some key) = false := by
      simp [is_processed, pyIdent, pyTruthyOpt, hk, h0]
    unfold process_file_s3
    rw [hip]
    simp [hp, hb, hpost, mark_processed, pyIdent, pyTruthyOpt, hk, lookup_set_self]

/-- Witness for C10: with both delete-after-send flags enabled and a post
that fails, both handlers record a failed entry carrying envelope id `E1`
and delete nothing. -/
theorem C10_post_failure_witness :
    (TrackerState.lookup (process_file demoEnvFalse demoCfg emptyRS
        "/tmp/111_222.jpg").tracker.state "/tmp/111_222.jpg" =
      some (mkEntry "E1" "t2" "failed" none none) ∧
     (process_file demoEnvFalse demoCfg emptyRS "/tmp/111_222.jpg").deletedFiles =
      emptyRS.deletedFiles) ∧
    (TrackerState.lookup (process_file_s3 demoEnvFalse demoCfg emptyRS
        "/tmp/111_222.jpg" "111_222.jpg").tracker.state "111_222.jpg" =
      some (mkEntry "E1" "t2" "failed" (some "111_222.jpg") none) ∧
     (process_file_s3 demoEnvFalse demoCfg emptyRS "/tmp/111_222.jpg"
        "111_222.jpg").deletedObjects = emptyRS.deletedObjects) := by
  have h := C10_post_failure_failed_entry_no_delete demoEnvFalse demoCfg emptyRS
    "/tmp/111_222.jpg" "111_222.jpg" "111" "222" "jpg" { uuid := "E1" }
    (by decide) rfl (by decide)
  exact ⟨h.1 (by decide) rfl, h.2 (by decide) rfl⟩

end VconFadapter
